import Mathlib

/-!
Shallow embedding of the table-storage batch pipeline of
`sdk/tables/azure-data-tables/azure/data/tables/aio/_base_client_async.py`,
centred on `AsyncTablesBaseClient._batch_send` (lines 102-176).

The per-operation sub-requests handed to `_batch_send` are built elsewhere
(request builder, out of scope) and are treated as opaque values of a type
parameter.  The underlying azure-core pipeline is modelled as a function
from the single built outer request to the single outer HTTP response.
-/

namespace Tables

/-- One decoded sub-response extracted from the multipart response body:
an HTTP status code together with headers and body. -/
structure SubResponse where
  status_code : Nat
  headers : List (String × String)
  body : String
deriving Repr, DecidableEq

/-- The outer HTTP response received from the pipeline: its top-level
status code, and the ordered sub-responses its multipart body decodes to
(`response.parts()` in the source). -/
structure OuterResponse where
  status_code : Nat
  parts : List SubResponse
deriving Repr, DecidableEq

/-- Modelled from the spec: `extract_batch_part_metadata` is defined in
`_base_client.py`, which is not among the provided source files; the spec
(sections 3 and 6) describes its result only as the per-part extracted
metadata of one sub-response.  We model it as reading the metadata off the
sub-response headers. -/
def extract_batch_part_metadata (p : SubResponse) : List (String × String) :=
  p.headers

/-- The inner change-set request: a `HttpRequest("POST", None)` whose
multipart body holds the per-operation sub-requests
(`changeset.set_multipart_mixed(*reqs, ..., boundary="changeset_...")`). -/
structure ChangesetRequest (α : Type) where
  method : String
  url : Option String
  multipart_parts : List α
  multipart_boundary : Option String
deriving Repr, DecidableEq

/-- The single outer batch request handed to the pipeline: POST to
`https://{hostname}/$batch` with the protocol headers, whose multipart body
holds the change-set requests
(`request.set_multipart_mixed(changeset, ..., boundary="batch_...")`). -/
structure BatchRequest (α : Type) where
  method : String
  url : String
  headers : List (String × String)
  multipart_parts : List (ChangesetRequest α)
  multipart_boundary : Option String
deriving Repr, DecidableEq

/-- The inner boundary token: `"changeset_{}".format(uuid4())`. -/
def changeset_boundary (u : String) : String :=
  "changeset_" ++ u

/-- The outer boundary token: `"batch_{}".format(uuid4())`. -/
def batch_boundary (u : String) : String :=
  "batch_" ++ u

/-- Lines 112-115: build the inner change-set request holding the ordered
per-operation sub-requests. -/
def build_changeset {α : Type} (reqs : List α) (inner_uuid : String) :
    ChangesetRequest α :=
  { method := "POST"
    url := none
    multipart_parts := reqs
    multipart_boundary := some (changeset_boundary inner_uuid) }

/-- Lines 116-131: build the single outer batch request: POST to
`https://{hostname}/$batch` with the five protocol headers, whose multipart
body holds exactly the one change-set. -/
def build_batch_request {α : Type} (reqs : List α)
    (hostname api_version inner_uuid outer_uuid : String) : BatchRequest α :=
  { method := "POST"
    url := "https://" ++ hostname ++ "/$batch"
    headers :=
      [("x-ms-version", api_version),
       ("DataServiceVersion", "3.0"),
       ("MaxDataServiceVersion", "3.0;NetFx"),
       ("Content-Type", "application/json"),
       ("Accept", "application/json")]
    multipart_parts := [build_changeset reqs inner_uuid]
    multipart_boundary := some (batch_boundary outer_uuid) }

/-- The errors `_batch_send` can raise, with exactly the arguments the
source passes to each constructor: `ClientAuthenticationError(message,
response)`, `ResourceNotFoundError(message, response)`,
`RequestTooLargeError(message, response)` and `BatchErrorException(message,
response, parts)`. -/
inductive BatchError where
  | clientAuthenticationError (message : String) (response : OuterResponse)
  | resourceNotFoundError (message : String) (response : OuterResponse)
  | requestTooLargeError (message : String) (response : OuterResponse)
  | batchErrorException (message : String) (response : OuterResponse)
      (parts : Option (List SubResponse))
deriving Repr, DecidableEq

/-- The kind of an error, forgetting its payload. -/
inductive ErrorKind where
  | authentication
  | notFound
  | payloadTooLarge
  | batchFailure
deriving Repr, DecidableEq

/-- Map each raised error to its kind. -/
def BatchError.kind : BatchError → ErrorKind
  | .clientAuthenticationError _ _ => .authentication
  | .resourceNotFoundError _ _ => .notFound
  | .requestTooLargeError _ _ => .payloadTooLarge
  | .batchErrorException _ _ _ => .batchFailure

/-- The sub-response list explicitly attached to an error at construction:
only `BatchErrorException` takes a `parts` argument; the other three
constructors receive the message and the outer response alone. -/
def BatchError.attachedParts : BatchError → Option (List SubResponse)
  | .batchErrorException _ _ parts => parts
  | _ => none

/-- Message of line 138. -/
def auth_message : String :=
  "There was an error authenticating with the service"

/-- Message of lines 143 and 163. -/
def not_found_message : String :=
  "The resource could not be found"

/-- Message of lines 147 and 167. -/
def too_large_message : String :=
  "The request was too large"

/-- Message of lines 151 and 172. -/
def batch_failure_message : String :=
  "There is a failure in the batch operation."

/-- The Python test `200 <= p.status_code < 300` on one sub-response. -/
def statusOk (p : SubResponse) : Bool :=
  decide (200 ≤ p.status_code ∧ p.status_code < 300)

/-- Lines 136-176: classify the outer response and, under outer status 202,
decode the sub-responses, either raising a single error or pairing the
supplied entities with the per-part metadata (`list(zip(entities, ...))`,
which truncates to the shorter of the two sequences). -/
def process_batch_response {ε : Type} (entities : List ε)
    (response : OuterResponse) :
    Except BatchError (List (ε × List (String × String))) :=
  if response.status_code = 403 then
    .error (.clientAuthenticationError auth_message response)
  else if response.status_code = 404 then
    .error (.resourceNotFoundError not_found_message response)
  else if response.status_code = 413 then
    .error (.requestTooLargeError too_large_message response)
  else if response.status_code ≠ 202 then
    .error (.batchErrorException batch_failure_message response none)
  else
    let parts := response.parts
    if parts.any (fun p => !statusOk p) then
      if parts.any (fun p => p.status_code == 404) then
        .error (.resourceNotFoundError not_found_message response)
      else if parts.any (fun p => p.status_code == 413) then
        .error (.requestTooLargeError too_large_message response)
      else
        .error (.batchErrorException batch_failure_message response (some parts))
    else
      .ok (entities.zip (parts.map extract_batch_part_metadata))

/-- The observable effect of one `_batch_send` call: the ordered list of
outer requests handed to the pipeline during the call, and the returned
value or raised error. -/
structure BatchCall (ε α : Type) where
  sent : List (BatchRequest α)
  result : Except BatchError (List (ε × List (String × String)))
deriving Repr

/-- `AsyncTablesBaseClient._batch_send` (lines 102-176): build the nested
multipart request, hand it to the pipeline once
(`await self._client._client._pipeline.run(request)`), and process the
single response. -/
def _batch_send {ε α : Type} (entities : List ε) (reqs : List α)
    (hostname api_version inner_uuid outer_uuid : String)
    (transport : BatchRequest α → OuterResponse) : BatchCall ε α :=
  let request := build_batch_request reqs hostname api_version inner_uuid outer_uuid
  let response := transport request
  { sent := [request]
    result := process_batch_response entities response }

/-- The kind of the error of a result, if it is an error. -/
def resultKind {ε : Type} :
    Except BatchError (List (ε × List (String × String))) → Option ErrorKind
  | .ok _ => none
  | .error e => some e.kind

/-! ### Helper lemmas -/

theorem any_not_ok_eq_false {parts : List SubResponse}
    (h : ∀ p ∈ parts, 200 ≤ p.status_code ∧ p.status_code < 300) :
    parts.any (fun p => !statusOk p) = false := by
  simp only [List.any_eq_false, Bool.not_eq_true']
  intro p hp
  simp [statusOk, h p hp]

theorem any_not_ok_eq_true {parts : List SubResponse}
    (h : ∃ p ∈ parts, ¬(200 ≤ p.status_code ∧ p.status_code < 300)) :
    parts.any (fun p => !statusOk p) = true := by
  obtain ⟨p, hp, hbad⟩ := h
  simp only [List.any_eq_true]
  exact ⟨p, hp, by simp [statusOk, hbad]⟩

theorem any_status_eq_true {parts : List SubResponse} {c : Nat}
    (h : ∃ p ∈ parts, p.status_code = c) :
    parts.any (fun p => p.status_code == c) = true := by
  obtain ⟨p, hp, hc⟩ := h
  simp only [List.any_eq_true]
  exact ⟨p, hp, by simp [hc]⟩

theorem any_status_eq_false {parts : List SubResponse} {c : Nat}
    (h : ¬ ∃ p ∈ parts, p.status_code = c) :
    parts.any (fun p => p.status_code == c) = false := by
  simp only [List.any_eq_false, beq_iff_eq]
  intro p hp hc
  exact h ⟨p, hp, hc⟩

theorem perm_any_eq {l l2 : List SubResponse} (h : l.Perm l2)
    (f : SubResponse → Bool) : l.any f = l2.any f := by
  apply Bool.eq_iff_iff.mpr
  simp only [List.any_eq_true]
  exact ⟨fun ⟨x, hx, hfx⟩ => ⟨x, h.mem_iff.mp hx, hfx⟩,
         fun ⟨x, hx, hfx⟩ => ⟨x, h.mem_iff.mpr hx, hfx⟩⟩

/-- Under outer status 202 the result is decided by the decoded parts alone. -/
theorem process_202 {ε : Type} (entities : List ε) (resp : OuterResponse)
    (hstat : resp.status_code = 202) :
    process_batch_response entities resp =
      (if resp.parts.any (fun p => !statusOk p) then
        (if resp.parts.any (fun p => p.status_code == 404) then
          .error (.resourceNotFoundError not_found_message resp)
        else if resp.parts.any (fun p => p.status_code == 413) then
          .error (.requestTooLargeError too_large_message resp)
        else
          .error (.batchErrorException batch_failure_message resp (some resp.parts)))
      else
        .ok (entities.zip (resp.parts.map extract_batch_part_metadata))) := by
  unfold process_batch_response
  rw [hstat]
  simp

/-! ### Claim theorems -/

/-- C1: for every non-empty ordered list of N operations with their N
entities, if the outer response status is 202 and all N decoded
sub-responses have status in [200,300), then `_batch_send` returns an
ordered list of N (entity, extracted-metadata) pairs whose ordinal order
equals the submission order: the i-th pair holds the i-th entity and the
metadata of the i-th sub-response. -/
theorem batch_send_preserves_submission_order {ε α : Type}
    (entities : List ε) (reqs : List α)
    (hostname api_version inner_uuid outer_uuid : String)
    (transport : BatchRequest α → OuterResponse) (N : Nat)
    (_hN : 0 < N)
    (_hops : reqs.length = N)
    (hent : entities.length = N)
    (hstat : (transport (build_batch_request reqs hostname api_version
      inner_uuid outer_uuid)).status_code = 202)
    (hlen : (transport (build_batch_request reqs hostname api_version
      inner_uuid outer_uuid)).parts.length = N)
    (hall : ∀ p ∈ (transport (build_batch_request reqs hostname api_version
      inner_uuid outer_uuid)).parts,
      200 ≤ p.status_code ∧ p.status_code < 300) :
    ∃ l, (_batch_send entities reqs hostname api_version inner_uuid
        outer_uuid transport).result = .ok l ∧
      l.length = N ∧
      l.map Prod.fst = entities ∧
      l.map Prod.snd = (transport (build_batch_request reqs hostname
        api_version inner_uuid outer_uuid)).parts.map
        extract_batch_part_metadata := by
  set resp := transport (build_batch_request reqs hostname api_version
    inner_uuid outer_uuid) with hresp
  have hres : (_batch_send entities reqs hostname api_version inner_uuid
      outer_uuid transport).result = process_batch_response entities resp := rfl
  rw [hres, process_202 entities resp hstat, any_not_ok_eq_false hall]
  simp only [Bool.false_eq_true, if_false]
  refine ⟨_, rfl, ?_, ?_, ?_⟩
  · simp [hent, hlen]
  · apply List.map_fst_zip
    simp [hent, hlen]
  · apply List.map_snd_zip
    simp [hent, hlen]

/-- C1 witness: two operations, both succeeding with 2xx sub-responses. -/
theorem batch_send_preserves_submission_order_witness :
    ∃ l, (_batch_send [10, 20] [0, 1] "acct" "2019-02-02" "i" "o"
        (fun _ => ⟨202, [⟨200, [("ETag", "a")], ""⟩, ⟨204, [("ETag", "b")], ""⟩]⟩)
        : BatchCall Nat Nat).result = .ok l ∧
      l.length = 2 ∧
      l.map Prod.fst = [10, 20] ∧
      l.map Prod.snd = ((fun (_ : BatchRequest Nat) =>
          (⟨202, [⟨200, [("ETag", "a")], ""⟩, ⟨204, [("ETag", "b")], ""⟩]⟩
            : OuterResponse))
          (build_batch_request [0, 1] "acct" "2019-02-02" "i" "o")).parts.map
        extract_batch_part_metadata :=
  batch_send_preserves_submission_order [10, 20] [0, 1] "acct" "2019-02-02"
    "i" "o" _ 2 (by decide) rfl rfl rfl rfl (by decide)

/-- C7: for every non-empty operation list, the single outer request built
by `_batch_send` is a POST to `https://{hostname}/$batch` with the five
protocol headers, and its multipart body contains exactly one sub-part,
the inner change-set, which holds one part per operation in submission
order. -/
theorem batch_send_request_shape {ε α : Type} (entities : List ε)
    (reqs : List α) (hostname api_version inner_uuid outer_uuid : String)
    (transport : BatchRequest α → OuterResponse)
    (_hne : reqs ≠ []) :
    (_batch_send entities reqs hostname api_version inner_uuid outer_uuid
      transport).sent =
      [build_batch_request reqs hostname api_version inner_uuid outer_uuid] ∧
    (build_batch_request reqs hostname api_version inner_uuid
      outer_uuid).method = "POST" ∧
    (build_batch_request reqs hostname api_version inner_uuid
      outer_uuid).url = "https://" ++ hostname ++ "/$batch" ∧
    (build_batch_request reqs hostname api_version inner_uuid
      outer_uuid).headers =
      [("x-ms-version", api_version),
       ("DataServiceVersion", "3.0"),
       ("MaxDataServiceVersion", "3.0;NetFx"),
       ("Content-Type", "application/json"),
       ("Accept", "application/json")] ∧
    (build_batch_request reqs hostname api_version inner_uuid
      outer_uuid).multipart_parts = [build_changeset reqs inner_uuid] ∧
    (build_changeset reqs inner_uuid).multipart_parts = reqs :=
  ⟨rfl, rfl, rfl, rfl, rfl, rfl⟩

/-- C7 witness: a concrete three-operation batch. -/
theorem batch_send_request_shape_witness :
    (_batch_send [1, 2, 3] [7, 8, 9] "acct" "2019-02-02" "i" "o"
      (fun _ => (⟨202, []⟩ : OuterResponse)) : BatchCall Nat Nat).sent =
      [build_batch_request [7, 8, 9] "acct" "2019-02-02" "i" "o"] ∧
    (build_batch_request [7, 8, 9] "acct" "2019-02-02" "i" "o").method =
      "POST" ∧
    (build_batch_request [7, 8, 9] "acct" "2019-02-02" "i" "o").url =
      "https://" ++ "acct" ++ "/$batch" ∧
    (build_batch_request [7, 8, 9] "acct" "2019-02-02" "i" "o").headers =
      [("x-ms-version", "2019-02-02"),
       ("DataServiceVersion", "3.0"),
       ("MaxDataServiceVersion", "3.0;NetFx"),
       ("Content-Type", "application/json"),
       ("Accept", "application/json")] ∧
    (build_batch_request [7, 8, 9] "acct" "2019-02-02" "i"
      "o").multipart_parts = [build_changeset [7, 8, 9] "i"] ∧
    (build_changeset [7, 8, 9] "i").multipart_parts = [7, 8, 9] :=
  batch_send_request_shape [1, 2, 3] [7, 8, 9] "acct" "2019-02-02" "i" "o"
    (fun _ => (⟨202, []⟩ : OuterResponse)) (by decide)

/-- C8: `_batch_send` hands exactly one request to the pipeline per call,
whatever the transport returns. -/
theorem batch_send_single_transport_send {ε α : Type} (entities : List ε)
    (reqs : List α) (hostname api_version inner_uuid outer_uuid : String)
    (transport : BatchRequest α → OuterResponse) :
    ((_batch_send entities reqs hostname api_version inner_uuid outer_uuid
      transport).sent).length = 1 :=
  rfl

/-- C2: `_batch_send` maps the top-level status to an error before any
multipart decoding: 403 raises `ClientAuthenticationError`, 404 raises
`ResourceNotFoundError`, 413 raises `RequestTooLargeError`, any other
status different from 202 raises `BatchErrorException` with no parts, and
when the status differs from 202 the outcome kind is independent of the
decoded parts; only 202 can proceed to a successful decode. -/
theorem batch_send_outer_status_classification {ε α : Type}
    (entities : List ε) (reqs : List α)
    (hostname api_version inner_uuid outer_uuid : String)
    (resp : OuterResponse) :
    (resp.status_code = 403 →
      (_batch_send entities reqs hostname api_version inner_uuid outer_uuid
        (fun _ => resp)).result =
        .error (.clientAuthenticationError auth_message resp)) ∧
    (resp.status_code = 404 →
      (_batch_send entities reqs hostname api_version inner_uuid outer_uuid
        (fun _ => resp)).result =
        .error (.resourceNotFoundError not_found_message resp)) ∧
    (resp.status_code = 413 →
      (_batch_send entities reqs hostname api_version inner_uuid outer_uuid
        (fun _ => resp)).result =
        .error (.requestTooLargeError too_large_message resp)) ∧
    (resp.status_code ≠ 202 → resp.status_code ≠ 403 →
      resp.status_code ≠ 404 → resp.status_code ≠ 413 →
      (_batch_send entities reqs hostname api_version inner_uuid outer_uuid
        (fun _ => resp)).result =
        .error (.batchErrorException batch_failure_message resp none)) ∧
    (resp.status_code ≠ 202 → ∀ other_parts : List SubResponse,
      resultKind (process_batch_response entities
        ⟨resp.status_code, other_parts⟩) =
      resultKind ((_batch_send entities reqs hostname api_version inner_uuid
        outer_uuid (fun _ => resp)).result)) ∧
    (resp.status_code = 202 →
      (∀ p ∈ resp.parts, 200 ≤ p.status_code ∧ p.status_code < 300) →
      ∃ l, (_batch_send entities reqs hostname api_version inner_uuid
        outer_uuid (fun _ => resp)).result = .ok l) := by
  have hres : (_batch_send entities reqs hostname api_version inner_uuid
      outer_uuid (fun _ => resp)).result =
      process_batch_response entities resp := rfl
  refine ⟨?_, ?_, ?_, ?_, ?_, ?_⟩
  · intro h403
    rw [hres]
    unfold process_batch_response
    rw [h403]
    simp
  · intro h404
    rw [hres]
    unfold process_batch_response
    rw [h404]
    simp
  · intro h413
    rw [hres]
    unfold process_batch_response
    rw [h413]
    simp
  · intro h202 h403 h404 h413
    rw [hres]
    unfold process_batch_response
    simp [h202, h403, h404, h413]
  · intro h202 other_parts
    rw [hres]
    unfold process_batch_response
    by_cases h403 : resp.status_code = 403
    · simp [h403, resultKind, BatchError.kind]
    · by_cases h404 : resp.status_code = 404
      · simp [h403, h404, resultKind, BatchError.kind]
      · by_cases h413 : resp.status_code = 413
        · simp [h403, h404, h413, resultKind, BatchError.kind]
        · simp [h403, h404, h413, h202, resultKind, BatchError.kind]
  · intro h202 hall
    rw [hres, process_202 entities resp h202, any_not_ok_eq_false hall]
    exact ⟨_, rfl⟩

/-- C2 witness: a 403 outer response is classified as an authentication
error. -/
theorem batch_send_outer_status_classification_witness :
    ((_batch_send [5] [0] "acct" "2019-02-02" "i" "o"
      (fun _ => (⟨403, []⟩ : OuterResponse)) : BatchCall Nat Nat).result =
      .error (.clientAuthenticationError auth_message ⟨403, []⟩)) :=
  (batch_send_outer_status_classification [5] [0] "acct" "2019-02-02" "i"
    "o" ⟨403, []⟩).1 rfl

/-- C3: under outer status 202, when at least one decoded sub-response has
status outside [200,300), the single raised error is chosen by the
priority order 404 over 413 over generic, evaluated over the whole list,
regardless of position: any 404 anywhere gives `ResourceNotFoundError`,
otherwise any 413 gives `RequestTooLargeError`, otherwise the generic
`BatchErrorException`. -/
theorem batch_send_subresponse_error_priority {ε α : Type}
    (entities : List ε) (reqs : List α)
    (hostname api_version inner_uuid outer_uuid : String)
    (resp : OuterResponse)
    (hstat : resp.status_code = 202)
    (hfail : ∃ p ∈ resp.parts,
      ¬(200 ≤ p.status_code ∧ p.status_code < 300)) :
    ((∃ p ∈ resp.parts, p.status_code = 404) →
      (_batch_send entities reqs hostname api_version inner_uuid outer_uuid
        (fun _ => resp)).result =
        .error (.resourceNotFoundError not_found_message resp)) ∧
    ((¬ ∃ p ∈ resp.parts, p.status_code = 404) →
      (∃ p ∈ resp.parts, p.status_code = 413) →
      (_batch_send entities reqs hostname api_version inner_uuid outer_uuid
        (fun _ => resp)).result =
        .error (.requestTooLargeError too_large_message resp)) ∧
    ((¬ ∃ p ∈ resp.parts, p.status_code = 404) →
      (¬ ∃ p ∈ resp.parts, p.status_code = 413) →
      (_batch_send entities reqs hostname api_version inner_uuid outer_uuid
        (fun _ => resp)).result =
        .error (.batchErrorException batch_failure_message resp
          (some resp.parts))) := by
  have hres : (_batch_send entities reqs hostname api_version inner_uuid
      outer_uuid (fun _ => resp)).result =
      process_batch_response entities resp := rfl
  rw [hres, process_202 entities resp hstat, any_not_ok_eq_true hfail]
  refine ⟨?_, ?_, ?_⟩
  · intro h404
    rw [any_status_eq_true h404]
    simp
  · intro h404 h413
    rw [any_status_eq_false h404, any_status_eq_true h413]
    simp
  · intro h404 h413
    rw [any_status_eq_false h404, any_status_eq_false h413]
    simp

/-- C3 witness: sub-responses [200, 413, 404]: the 404 wins even though
the 413 comes first positionally. -/
theorem batch_send_subresponse_error_priority_witness :
    ((_batch_send [1, 2, 3] [0, 1, 2] "acct" "2019-02-02" "i" "o"
      (fun _ => (⟨202, [⟨200, [], ""⟩, ⟨413, [], ""⟩, ⟨404, [], ""⟩]⟩
        : OuterResponse)) : BatchCall Nat Nat).result =
      .error (.resourceNotFoundError not_found_message
        ⟨202, [⟨200, [], ""⟩, ⟨413, [], ""⟩, ⟨404, [], ""⟩]⟩)) :=
  (batch_send_subresponse_error_priority [1, 2, 3] [0, 1, 2] "acct"
    "2019-02-02" "i" "o" ⟨202, [⟨200, [], ""⟩, ⟨413, [], ""⟩, ⟨404, [], ""⟩]⟩
    rfl ⟨⟨413, [], ""⟩, by decide⟩).1 ⟨⟨404, [], ""⟩, by decide⟩

/-- C4 counterexample: two operations, outer 202, sub-responses [200, 404]:
the raised error is the not-found kind but its attached sub-response list
is `none`, not a list of length 2 — the `ResourceNotFoundError` of the
source is constructed from the message and the outer response alone and
carries no parts argument. -/
theorem notfound_attached_parts_counterexample :
    ∃ e, (_batch_send [1, 2] [0, 1] "acct" "2019-02-02" "i" "o"
        (fun _ => (⟨202, [⟨200, [], ""⟩, ⟨404, [], ""⟩]⟩ : OuterResponse))
        : BatchCall Nat Nat).result = .error e ∧
      e.kind = .notFound ∧
      e.attachedParts = none :=
  ⟨.resourceNotFoundError not_found_message
    ⟨202, [⟨200, [], ""⟩, ⟨404, [], ""⟩]⟩, rfl, rfl, rfl⟩

/-- C4 amended: when some sub-response under outer status 202 fails, the
single raised error carries the full ordered list of decoded sub-responses
only in the generic `BatchErrorException` case; the specialized
`ResourceNotFoundError` and `RequestTooLargeError` are constructed from
the outer response alone and attach no sub-response list. -/
theorem batch_send_failure_attached_parts {ε α : Type}
    (entities : List ε) (reqs : List α)
    (hostname api_version inner_uuid outer_uuid : String)
    (resp : OuterResponse)
    (hstat : resp.status_code = 202)
    (hfail : ∃ p ∈ resp.parts,
      ¬(200 ≤ p.status_code ∧ p.status_code < 300)) :
    ∃ e, (_batch_send entities reqs hostname api_version inner_uuid
        outer_uuid (fun _ => resp)).result = .error e ∧
      (e.kind = .notFound ∨ e.kind = .payloadTooLarge ∨
        e.kind = .batchFailure) ∧
      (e.kind = .batchFailure → e.attachedParts = some resp.parts) ∧
      ((e.kind = .notFound ∨ e.kind = .payloadTooLarge) →
        e.attachedParts = none) := by
  have hres : (_batch_send entities reqs hostname api_version inner_uuid
      outer_uuid (fun _ => resp)).result =
      process_batch_response entities resp := rfl
  rw [hres, process_202 entities resp hstat, any_not_ok_eq_true hfail]
  by_cases h404 : resp.parts.any (fun p => p.status_code == 404)
  · rw [if_pos rfl, if_pos h404]
    exact ⟨_, rfl, Or.inl rfl, by simp [BatchError.kind],
      fun _ => rfl⟩
  · rw [if_pos rfl, if_neg h404]
    by_cases h413 : resp.parts.any (fun p => p.status_code == 413)
    · rw [if_pos h413]
      exact ⟨_, rfl, Or.inr (Or.inl rfl), by simp [BatchError.kind],
        fun _ => rfl⟩
    · rw [if_neg h413]
      refine ⟨_, rfl, Or.inr (Or.inr rfl), fun _ => rfl, ?_⟩
      rintro (h | h) <;> simp [BatchError.kind] at h

/-- C4 amended witness: sub-responses [500, 500] give the generic error
with the full two-element list attached. -/
theorem batch_send_failure_attached_parts_witness :
    ∃ e, (_batch_send [1, 2] [0, 1] "acct" "2019-02-02" "i" "o"
        (fun _ => (⟨202, [⟨500, [], ""⟩, ⟨500, [], ""⟩]⟩ : OuterResponse))
        : BatchCall Nat Nat).result = .error e ∧
      (e.kind = .notFound ∨ e.kind = .payloadTooLarge ∨
        e.kind = .batchFailure) ∧
      (e.kind = .batchFailure →
        e.attachedParts = some [⟨500, [], ""⟩, ⟨500, [], ""⟩]) ∧
      ((e.kind = .notFound ∨ e.kind = .payloadTooLarge) →
        e.attachedParts = none) :=
  batch_send_failure_attached_parts [1, 2] [0, 1] "acct" "2019-02-02" "i"
    "o" ⟨202, [⟨500, [], ""⟩, ⟨500, [], ""⟩]⟩ rfl
    ⟨⟨500, [], ""⟩, by decide⟩

/-- C5 counterexample: for the empty operation list, `_batch_send` does
not fail fast: it hands one request to the transport and, with an
all-success 202 response, returns the empty result list with no error of
any kind. -/
theorem empty_batch_counterexample :
    ((_batch_send ([] : List Nat) ([] : List Nat) "acct" "2019-02-02" "i"
      "o" (fun _ => (⟨202, []⟩ : OuterResponse))).sent).length = 1 ∧
    (_batch_send ([] : List Nat) ([] : List Nat) "acct" "2019-02-02" "i"
      "o" (fun _ => (⟨202, []⟩ : OuterResponse))).result = .ok [] :=
  ⟨rfl, rfl⟩

/-- C5 amended: for the empty operation list `_batch_send` performs no
local validation: it hands exactly one outer request to the transport,
a batch whose single change-set carries zero parts. -/
theorem empty_batch_sends_zero_part_changeset {ε α : Type}
    (entities : List ε)
    (hostname api_version inner_uuid outer_uuid : String)
    (transport : BatchRequest α → OuterResponse) :
    (_batch_send entities ([] : List α) hostname api_version inner_uuid
      outer_uuid transport).sent =
      [build_batch_request [] hostname api_version inner_uuid outer_uuid] ∧
    (build_batch_request ([] : List α) hostname api_version inner_uuid
      outer_uuid).multipart_parts = [build_changeset [] inner_uuid] ∧
    (build_changeset ([] : List α) inner_uuid).multipart_parts = [] :=
  ⟨rfl, rfl, rfl⟩

theorem string_append_left_injective (pre : String) {a b : String}
    (h : pre ++ a = pre ++ b) : a = b := by
  have hd := congrArg String.data h
  rw [String.data_append, String.data_append] at hd
  exact String.ext (List.append_cancel_left hd)

theorem changeset_boundary_ne_batch_boundary (u w : String) :
    changeset_boundary u ≠ batch_boundary w := by
  intro h
  have hd := congrArg String.data h
  unfold changeset_boundary batch_boundary at hd
  rw [String.data_append, String.data_append] at hd
  simp [show ("changeset_").data =
          ['c', 'h', 'a', 'n', 'g', 'e', 's', 'e', 't', '_'] from rfl,
        show ("batch_").data = ['b', 'a', 't', 'c', 'h', '_'] from rfl] at hd

/-- C6: two calls drawing distinct random identifiers get distinct inner
boundaries and distinct outer boundaries; within one call the inner
boundary is `changeset_` followed by the identifier and the outer boundary
is `batch_` followed by the identifier, and no inner boundary ever equals
an outer boundary. -/
theorem batch_send_boundary_tokens {α : Type} (reqs1 reqs2 : List α)
    (host1 ver1 host2 ver2 : String)
    (inner1 outer1 inner2 outer2 : String)
    (hinner : inner1 ≠ inner2) (houter : outer1 ≠ outer2) :
    (build_changeset reqs1 inner1).multipart_boundary =
      some (changeset_boundary inner1) ∧
    (build_batch_request reqs1 host1 ver1 inner1 outer1).multipart_boundary =
      some (batch_boundary outer1) ∧
    (build_changeset reqs1 inner1).multipart_boundary ≠
      (build_changeset reqs2 inner2).multipart_boundary ∧
    (build_batch_request reqs1 host1 ver1 inner1 outer1).multipart_boundary ≠
      (build_batch_request reqs2 host2 ver2 inner2 outer2).multipart_boundary ∧
    (∀ u w : String, changeset_boundary u ≠ batch_boundary w) := by
  refine ⟨rfl, rfl, ?_, ?_, changeset_boundary_ne_batch_boundary⟩
  · intro h
    apply hinner
    have := Option.some.inj h
    exact string_append_left_injective "changeset_" this
  · intro h
    apply houter
    have := Option.some.inj h
    exact string_append_left_injective "batch_" this

/-- C6 witness: two concrete distinct identifiers. -/
theorem batch_send_boundary_tokens_witness :
    (build_changeset [0] "aa").multipart_boundary =
      some (changeset_boundary "aa") ∧
    (build_batch_request [0] "acct" "v" "aa" "cc").multipart_boundary =
      some (batch_boundary "cc") ∧
    (build_changeset ([0] : List Nat) "aa").multipart_boundary ≠
      (build_changeset ([1] : List Nat) "bb").multipart_boundary ∧
    (build_batch_request ([0] : List Nat) "acct" "v" "aa"
      "cc").multipart_boundary ≠
      (build_batch_request ([1] : List Nat) "acct" "v" "bb"
      "dd").multipart_boundary ∧
    (∀ u w : String, changeset_boundary u ≠ batch_boundary w) :=
  batch_send_boundary_tokens [0] [1] "acct" "v" "acct" "v" "aa" "cc" "bb"
    "dd" (by decide) (by decide)

/-- C9: when the number of decoded sub-responses differs from the number
of supplied entities and every sub-response is 2xx, `_batch_send` raises
no error and returns a list whose length is the minimum of the two counts:
the pairing silently truncates to the shorter sequence. -/
theorem batch_send_zip_truncates {ε α : Type} (entities : List ε)
    (reqs : List α) (hostname api_version inner_uuid outer_uuid : String)
    (resp : OuterResponse)
    (hstat : resp.status_code = 202)
    (hall : ∀ p ∈ resp.parts, 200 ≤ p.status_code ∧ p.status_code < 300)
    (_hmismatch : entities.length ≠ resp.parts.length) :
    ∃ l, (_batch_send entities reqs hostname api_version inner_uuid
        outer_uuid (fun _ => resp)).result = .ok l ∧
      l.length = min entities.length resp.parts.length := by
  have hres : (_batch_send entities reqs hostname api_version inner_uuid
      outer_uuid (fun _ => resp)).result =
      process_batch_response entities resp := rfl
  rw [hres, process_202 entities resp hstat, any_not_ok_eq_false hall]
  simp only [Bool.false_eq_true, if_false]
  exact ⟨_, rfl, by simp⟩

/-- C9 witness: three entities, one 2xx sub-response: the call succeeds
with a single pair. -/
theorem batch_send_zip_truncates_witness :
    ∃ l, (_batch_send [1, 2, 3] [0, 1, 2] "acct" "2019-02-02" "i" "o"
        (fun _ => (⟨202, [⟨204, [], ""⟩]⟩ : OuterResponse))
        : BatchCall Nat Nat).result = .ok l ∧
      l.length = min 3 1 :=
  batch_send_zip_truncates [1, 2, 3] [0, 1, 2] "acct" "2019-02-02" "i" "o"
    ⟨202, [⟨204, [], ""⟩]⟩ rfl (by decide) (by decide)

/-- C10: under outer status 202 with at least one failing sub-response,
the kind of the single raised error is invariant under any permutation of
the decoded sub-response list: it depends only on which status codes
occur, not on their positions. -/
theorem batch_send_error_kind_perm_invariant {ε α : Type}
    (entities1 entities2 : List ε) (reqs : List α)
    (hostname api_version inner_uuid outer_uuid : String)
    (parts1 parts2 : List SubResponse)
    (hperm : parts1.Perm parts2)
    (hfail : ∃ p ∈ parts1,
      ¬(200 ≤ p.status_code ∧ p.status_code < 300)) :
    ∃ e1 e2,
      (_batch_send entities1 reqs hostname api_version inner_uuid outer_uuid
        (fun _ => (⟨202, parts1⟩ : OuterResponse))).result = .error e1 ∧
      (_batch_send entities2 reqs hostname api_version inner_uuid outer_uuid
        (fun _ => (⟨202, parts2⟩ : OuterResponse))).result = .error e2 ∧
      e1.kind = e2.kind := by
  have hres1 : (_batch_send entities1 reqs hostname api_version inner_uuid
      outer_uuid (fun _ => (⟨202, parts1⟩ : OuterResponse))).result =
      process_batch_response entities1 ⟨202, parts1⟩ := rfl
  have hres2 : (_batch_send entities2 reqs hostname api_version inner_uuid
      outer_uuid (fun _ => (⟨202, parts2⟩ : OuterResponse))).result =
      process_batch_response entities2 ⟨202, parts2⟩ := rfl
  have hfail2 : ∃ p ∈ parts2,
      ¬(200 ≤ p.status_code ∧ p.status_code < 300) := by
    obtain ⟨p, hp, hbad⟩ := hfail
    exact ⟨p, hperm.mem_iff.mp hp, hbad⟩
  rw [hres1, hres2, process_202 entities1 ⟨202, parts1⟩ rfl,
    process_202 entities2 ⟨202, parts2⟩ rfl]
  simp only [any_not_ok_eq_true hfail, any_not_ok_eq_true hfail2, if_true]
  rw [← perm_any_eq hperm (fun p => p.status_code == 404),
    ← perm_any_eq hperm (fun p => p.status_code == 413)]
  by_cases h404 : parts1.any (fun p => p.status_code == 404)
  · rw [if_pos h404, if_pos h404]
    exact ⟨_, _, rfl, rfl, rfl⟩
  · rw [if_neg h404, if_neg h404]
    by_cases h413 : parts1.any (fun p => p.status_code == 413)
    · rw [if_pos h413, if_pos h413]
      exact ⟨_, _, rfl, rfl, rfl⟩
    · rw [if_neg h413, if_neg h413]
      exact ⟨_, _, rfl, rfl, rfl⟩

/-- C10 witness: [404, 500] and its transposition [500, 404] raise errors
of the same kind. -/
theorem batch_send_error_kind_perm_invariant_witness :
    ∃ e1 e2,
      (_batch_send [1, 2] [0, 1] "acct" "2019-02-02" "i" "o"
        (fun _ => (⟨202, [⟨404, [], ""⟩, ⟨500, [], ""⟩]⟩ : OuterResponse))
        : BatchCall Nat Nat).result = .error e1 ∧
      (_batch_send [1, 2] [0, 1] "acct" "2019-02-02" "i" "o"
        (fun _ => (⟨202, [⟨500, [], ""⟩, ⟨404, [], ""⟩]⟩ : OuterResponse))
        : BatchCall Nat Nat).result = .error e2 ∧
      e1.kind = e2.kind :=
  batch_send_error_kind_perm_invariant [1, 2] [1, 2] [0, 1] "acct"
    "2019-02-02" "i" "o" [⟨404, [], ""⟩, ⟨500, [], ""⟩]
    [⟨500, [], ""⟩, ⟨404, [], ""⟩] (List.Perm.swap _ _ _)
    ⟨⟨404, [], ""⟩, by decide⟩

end Tables
